import Mathlib

/-!
# Verification of the Shopify PDF label generator

A shallow embedding, in Lean 4, of the label layout and rendering engine of
`src/index.ts` together with the webhook handler of `api/order-paid.ts`.

Conventions of the embedding:

* All arithmetic of the source (JavaScript doubles) is modelled over `ℚ`.
  Every claim below carries a sub-point tolerance `ε`, and the witnesses and
  counterexamples stay far away from any floating rounding boundary, so the
  exact rational model settles each claim robustly.
* PDFKit's `doc.widthOfString(text)` at font size `s` equals
  `(sum of glyph advance widths / 1000) * s`: it is linear in the font size.
  The solver is therefore embedded parametrically in `u : ℚ`, the width of
  the (uppercased) text at font size 1, and `measureWidth u s = u * s`.
  Likewise `doc.heightOfString` is linear in the font size and enters as a
  parameter `hLine` (height at size 1).
* Filesystem and network effects (`existsSync`, Dropbox upload, HMAC digest,
  JSON parsing) enter as explicit function parameters; the control flow
  around them is translated from the source.
-/

/-! ## Unit conversion constants (src/index.ts lines 31-42) -/

def PDF_WIDTH_MM : ℚ := 270
def PDF_HEIGHT_MM : ℚ := 66
def TEXT_MAX_WIDTH_MM : ℚ := 260
def TEXT_MAX_HEIGHT_MM : ℚ := 54

/-- `const MM_TO_PT = 2.834645669` -/
def MM_TO_PT : ℚ := 2834645669 / 1000000000

def PDF_WIDTH_PT : ℚ := PDF_WIDTH_MM * MM_TO_PT
def PDF_HEIGHT_PT : ℚ := PDF_HEIGHT_MM * MM_TO_PT
def TEXT_WIDTH_PT : ℚ := TEXT_MAX_WIDTH_MM * MM_TO_PT
def TEXT_HEIGHT_PT : ℚ := TEXT_MAX_HEIGHT_MM * MM_TO_PT

/-! ## The font sizing solver (src/index.ts lines 174-211) -/

/-- `const VISIBLE_HEIGHT_RATIO = 0.73` (the name is kept camel-cased). -/
def visibleHeightRatio : ℚ := 73 / 100

/-- `measureWidth(fontSizePt)` = `doc.widthOfString(text)` at that size;
`u` is the width of the text at font size 1 (PDFKit width is linear). -/
def measureWidth (u fontSizePt : ℚ) : ℚ := u * fontSizePt

/-- `getVisibleHeight(fontSizePt) = fontSizePt * VISIBLE_HEIGHT_RATIO`. -/
def getVisibleHeight (fontSizePt : ℚ) : ℚ := fontSizePt * visibleHeightRatio

/-- `let optimalSize = TEXT_HEIGHT_PT / VISIBLE_HEIGHT_RATIO` (line 186):
the font size whose visible cap height would be exactly 54 mm. -/
def candidateSize : ℚ := TEXT_HEIGHT_PT / visibleHeightRatio

/-- One iteration of the refinement loop (lines 189-205): scale down for
width, then (sequentially, overriding) reset for height, then clamp to
`[20, 800]`. -/
def sizeStep (u s : ℚ) : ℚ :=
  let testWidth := measureWidth u s
  let testVisibleHeight := getVisibleHeight s
  let s1 := if TEXT_WIDTH_PT < testWidth then s * TEXT_WIDTH_PT / testWidth else s
  let s2 := if TEXT_HEIGHT_PT < testVisibleHeight then TEXT_HEIGHT_PT / visibleHeightRatio else s1
  max 20 (min s2 800)

/-- The loop `for (let i = 0; i < 15; i++)` starting from `candidateSize`;
`finalSize = optimalSize` after 15 iterations (line 208). -/
def solveSize (u : ℚ) : ℚ := (sizeStep u)^[15] candidateSize

/-- `const finalWidth = measureWidth(finalSize)` (line 210). -/
def finalWidth (u : ℚ) : ℚ := measureWidth u (solveSize u)

/-- `const finalVisibleHeight = getVisibleHeight(finalSize)` (line 211). -/
def finalVisibleHeight (u : ℚ) : ℚ := getVisibleHeight (solveSize u)

/-! ## Page geometry and the render pipeline (src/index.ts lines 114-272) -/

/-- `const textAreaX = (PDF_WIDTH_PT - TEXT_WIDTH_PT) / 2` (line 132): 5 mm. -/
def textAreaX : ℚ := (PDF_WIDTH_PT - TEXT_WIDTH_PT) / 2

/-- `const textAreaY = (PDF_HEIGHT_PT - TEXT_HEIGHT_PT) / 2` (line 133): 6 mm. -/
def textAreaY : ℚ := (PDF_HEIGHT_PT - TEXT_HEIGHT_PT) / 2

/-- A label configuration as extracted from an order line item (interface
`LabelConfig`, lines 44-51).  All fields except `quantity` are optional at
runtime: the extractor builds a `Partial<LabelConfig>` and checks only the
text.  The raw font-size attribute string is kept unparsed (it is only an
advisory hint, unused by the layout). -/
structure LabelConfig where
  text : Option String
  fontSizeRaw : Option String
  fontFamily : Option String
  color : Option String
  quantity : Nat
  configId : Option String
deriving Repr, DecidableEq

/-- The candidate-path search (lines 140-147): the first candidate path that
`existsSync` accepts. -/
def findImpactPath (candidatePaths : List String) (existsSync : String → Bool) :
    Option String :=
  candidatePaths.find? existsSync

/-- Lines 146-153: `throw new Error(...)` when no candidate path exists,
otherwise the font is registered from the found path. -/
def loadImpactFont (candidatePaths : List String) (existsSync : String → Bool) :
    Except String String :=
  match findImpactPath candidatePaths existsSync with
  | some p => Except.ok p
  | none => Except.error "Impact font not found in expected paths"

/-- The surrounding `try/catch` (lines 139-158): on any font-load failure,
log a warning and fall back to `Helvetica-Bold`.  Returns the font used
and whether the warning was logged. -/
def resolveFont (candidatePaths : List String) (existsSync : String → Bool) :
    String × Bool :=
  match loadImpactFont candidatePaths existsSync with
  | Except.ok _ => ("Impact", false)
  | Except.error _ => ("Helvetica-Bold", true)

/-- Everything `generateLabelPDF` computes before drawing (lines 160-248):
chosen font, solved size, measured footprint, placement, page size. -/
structure RenderGeometry where
  usedFont : String
  fontWarned : Bool
  finalSize : ℚ
  finalWidth : ℚ
  finalVisibleHeight : ℚ
  textX : ℚ
  safeBaselineY : ℚ
  pageWidthPt : ℚ
  pageHeightPt : ℚ
deriving Repr, DecidableEq

/-- The geometry computation of `generateLabelPDF` (lines 160-248).
`u` and `hLine` are `doc.widthOfString` and `doc.heightOfString` of the
uppercased text at font size 1 under the chosen font (PDFKit measurements
are linear in the font size). -/
def renderGeometry (_config : LabelConfig) (candidatePaths : List String)
    (existsSync : String → Bool) (u hLine : ℚ) : RenderGeometry :=
  let fontChoice := resolveFont candidatePaths existsSync
  let finalSize := solveSize u
  let fWidth := measureWidth u finalSize
  let fHeight := getVisibleHeight finalSize
  let textAreaCenterX := textAreaX + TEXT_WIDTH_PT / 2
  let tX := textAreaCenterX - fWidth / 2
  let measuredTextHeight := hLine * finalSize
  let textAreaCenterY := textAreaY + TEXT_HEIGHT_PT / 2
  let baselineY := textAreaCenterY - measuredTextHeight * (35 / 100)
  let minBaselineY := textAreaY + 2
  let maxBaselineY := textAreaY + TEXT_HEIGHT_PT - measuredTextHeight + 2
  ⟨fontChoice.1, fontChoice.2, finalSize, fWidth, fHeight, tX,
    max minBaselineY (min baselineY maxBaselineY), PDF_WIDTH_PT, PDF_HEIGHT_PT⟩

/-- `generateLabelPDF` as seen by its caller: the promise resolves with a
buffer whose geometry is `renderGeometry`.  A font-load failure is caught
inside (`resolveFont`) and never rejects the promise. -/
def generateLabelPDF (config : LabelConfig) (candidatePaths : List String)
    (existsSync : String → Bool) (u hLine : ℚ) : Except String RenderGeometry :=
  Except.ok (renderGeometry config candidatePaths existsSync u hLine)

/-! ## Order attribute extraction and the paid-order flow
(src/index.ts lines 22-101 and 277-309) -/

/-- JavaScript `x || d` on an optional string: empty string is falsy. -/
def jsOr (v : Option String) (d : String) : String :=
  match v with
  | some s => if s = "" then d else s
  | none => d

/-- JavaScript `n || d` on a number: 0 is falsy. -/
def jsOrNat (n d : Nat) : Nat := if n = 0 then d else n

structure OrderAttribute where
  key : String
  value : String
deriving Repr, DecidableEq

structure OrderLineItem where
  quantity : Nat
  attributes : List OrderAttribute
deriving Repr, DecidableEq

structure ShopifyOrder where
  name : Option String
  id : Option String
  createdAt : Option String
  lineItems : List OrderLineItem
deriving Repr, DecidableEq

/-- The `switch` over a line item's custom attributes (lines 72-92): a later
attribute with the same key overwrites an earlier one. -/
def applyAttr (c : LabelConfig) (a : OrderAttribute) : LabelConfig :=
  if a.key = "label_text" then { c with text := some a.value }
  else if a.key = "label_font_size_pt" then { c with fontSizeRaw := some a.value }
  else if a.key = "label_font_family" then { c with fontFamily := some a.value }
  else if a.key = "label_color" then { c with color := some a.value }
  else if a.key = "label_config_id" then { c with configId := some a.value }
  else c

/-- The seed config per line item (lines 68-70): `quantity || 1`. -/
def initialConfig (li : OrderLineItem) : LabelConfig :=
  ⟨none, none, none, none, jsOrNat li.quantity 1, none⟩

/-- `extractLabelConfigs` (lines 57-101): fold the attributes over the seed
config; keep the config only when its text is truthy, i.e. present and
non-empty (line 95, `if (config.text)`). -/
def extractLabelConfigs (order : ShopifyOrder) : List LabelConfig :=
  order.lineItems.filterMap fun li =>
    let config := li.attributes.foldl applyAttr (initialConfig li)
    match config.text with
    | some t => if t = "" then none else some config
    | none => none

/-- JavaScript `String.prototype.trim`: drop leading and trailing
whitespace (list-level, so that it computes by kernel reduction). -/
def trimChars (l : List Char) : List Char :=
  ((l.dropWhile Char.isWhitespace).reverse.dropWhile Char.isWhitespace).reverse

/-- JavaScript `s.trim()`. -/
def jsTrim (s : String) : String := String.mk (trimChars s.toList)

/-- JavaScript `s.slice(0, 10)` (line 281, the `YYYY-MM-DD` prefix). -/
def jsSlice10 (s : String) : String := String.mk (s.toList.take 10)

/-- Characters replaced by `-` in `sanitizePathName` (line 25). -/
def isPathUnsafeChar (c : Char) : Bool :=
  c == '\\' || c == '/' || c == ':' || c == '*' || c == '?' || c == '"' ||
    c == '<' || c == '>' || c == '|'

/-- Collapse runs of spaces to a single space (the effect of
`.replace(/\s+/g, ' ')` after whitespace has been normalised to spaces). -/
def squeezeSpaces : List Char → List Char
  | [] => []
  | [c] => [c]
  | a :: b :: rest =>
    if a == ' ' && b == ' ' then squeezeSpaces (b :: rest)
    else a :: squeezeSpaces (b :: rest)

/-- `sanitizePathName` (lines 22-29): replace unsafe path characters by `-`,
drop `#`, collapse whitespace runs to a single space, trim. -/
def sanitizePathName (s : String) : String :=
  let step1 := s.toList.map fun c => if isPathUnsafeChar c then '-' else c
  let step2 := step1.filter fun c => c != '#'
  let step3 := step2.map fun c => if c.isWhitespace then ' ' else c
  String.mk (trimChars (squeezeSpaces step3))

/-- The destination folder path of `handleOrderPaid` (lines 278-283);
`now` stands for `new Date().toISOString()` and `root` for the
`DROPBOX_ROOT_PATH` environment value. -/
def folderPathOf (root : Option String) (now : String) (order : ShopifyOrder) :
    String :=
  let rawOrderName := jsOr order.name ("Order-" ++ jsOr order.id "unknown")
  let orderName := sanitizePathName rawOrderName
  let date := jsSlice10 (jsOr order.createdAt now)
  jsOr root "/Labels" ++ "/" ++ date ++ "/" ++ orderName

/-- The generated filename (line 295). -/
def labelFilename (cfg : LabelConfig) (i : Nat) : String :=
  "label-" ++ jsOr cfg.configId "cfg" ++ "-" ++ toString i ++ ".pdf"

/-- The per-configuration copy loop of `handleOrderPaid` (lines 292-297):
one rendered buffer and filename per copy, the copy index running from 1
to `Math.max(1, cfg.quantity || 1)`. -/
def pdfFilenames (cfg : LabelConfig) : List String :=
  (List.range (max 1 (jsOrNat cfg.quantity 1))).map fun k => labelFilename cfg (k + 1)

/-- `handleOrderPaid` (lines 277-309), the Dropbox upload abstracted as a
function argument.  With no label configurations the handler returns a
successful result with no files, before any rendering. -/
def handleOrderPaid (root : Option String) (now : String)
    (upload : String → List String → Except String (List String))
    (order : ShopifyOrder) : Except String (String × List String) :=
  let folderPath := folderPathOf root now order
  let labelConfigs := extractLabelConfigs order
  if labelConfigs.length = 0 then Except.ok (folderPath, [])
  else
    match upload folderPath (labelConfigs.map pdfFilenames).flatten with
    | Except.ok files => Except.ok (folderPath, files)
    | Except.error e => Except.error e

/-- A concrete order whose only line item carries an empty `label_text`
attribute. -/
def emptyTextOrder : ShopifyOrder :=
  ⟨some "Ord", some "1", some "2026-01-02T00:00:00Z",
    [⟨1, [⟨"label_text", ""⟩]⟩]⟩

/-! ## The order-paid webhook (api/order-paid.ts) -/

structure WebhookRequest where
  method : String
  hmacHeader : Option String
  body : String
deriving Repr, DecidableEq

inductive HttpResponse where
  | methodNotAllowed
  | unauthorized
  | ok (folderPath : String) (files : List String)
  | serverError (message : String)
deriving Repr, DecidableEq

structure HandlerOutcome where
  response : HttpResponse
  orderPaidInvoked : Bool
deriving Repr, DecidableEq

/-- `verifyHmac` (api/order-paid.ts lines 4-13), parametric in the actual
HMAC-SHA256-base64 digest: an absent header fails; otherwise
`timingSafeEqual` on the two buffers is plain string equality (a length
mismatch throws and the `catch` returns false). -/
def verifyHmac (hmac : String → String → String) (rawBody : String)
    (secret : String) (hmacHeader : Option String) : Bool :=
  match hmacHeader with
  | none => false
  | some header => hmac secret rawBody == header

/-- The default-export `handler` (lines 15-49): 405 for non-POST requests,
then the trimmed secret must be non-empty and the HMAC must verify before
`handleOrderPaid` runs.  `parse` and `orderPaid` model `JSON.parse` and the
imported `handleOrderPaid`; the outcome records whether `handleOrderPaid`
was invoked. -/
def handler (hmac : String → String → String)
    (parse : String → Except String ShopifyOrder)
    (orderPaid : ShopifyOrder → Except String (String × List String))
    (secretEnv : Option String) (req : WebhookRequest) : HandlerOutcome :=
  if req.method ≠ "POST" then ⟨HttpResponse.methodNotAllowed, false⟩
  else
    let secret := jsTrim (secretEnv.getD "")
    if secret = "" ∨ verifyHmac hmac req.body secret req.hmacHeader = false then
      ⟨HttpResponse.unauthorized, false⟩
    else
      match parse req.body with
      | Except.error e => ⟨HttpResponse.serverError e, false⟩
      | Except.ok order =>
        match orderPaid order with
        | Except.ok (fp, files) => ⟨HttpResponse.ok fp files, true⟩
        | Except.error e => ⟨HttpResponse.serverError e, true⟩

/-! ## The order-number renderer (spec section 4.2)

No Order-Number Renderer exists under `src/`; the definitions below are
modelled from the specification text and the claim is settled against
them. -/

/-- Digits of the order number: strip all non-digit characters (spec 4.2). -/
def orderDigits (s : String) : List Char := s.toList.filter Char.isDigit

/-- Modelled from the spec: the calibrated digit spacing factor,
`spacingFactor ≈ 0.85` (spec 4.2); the renderer itself is missing from
`src/`. -/
def spacingFactor : ℚ := 85 / 100

/-- Modelled from the spec: uniform center-to-center spacing
`digitFontSizePt × spacingFactor` (spec 4.2). -/
def stackSpacing (digitFontSizePt : ℚ) : ℚ := digitFontSizePt * spacingFactor

/-- Modelled from the spec: the bottom digit's center,
`bottomCenterY = (columnHeightPt − totalSpan) / 2` with
`totalSpan = spacing × (digitCount − 1)` (spec 4.2). -/
def stackBottomCenterY (s : String) (columnHeightPt digitFontSizePt : ℚ) : ℚ :=
  (columnHeightPt -
    stackSpacing digitFontSizePt * (((orderDigits s).length : ℚ) - 1)) / 2

/-- Per-digit placement, an ephemeral value computed per render (spec 3). -/
structure RenderedDigitPlacement where
  character : Char
  rotationDegrees : Int
  centerX : ℚ
  centerY : ℚ
deriving Repr, DecidableEq

/-- Modelled from the spec: the Order-Number Renderer (spec 4.2), missing
from `src/`.  Each digit is rotated 90° counter-clockwise; digits are
stacked bottom-to-top in the original left-to-right reading order (first
digit on top), uniformly spaced, each centered horizontally in the column,
the whole stack centered vertically. -/
def renderOrderNumber (orderNumber : String)
    (columnWidthPt columnHeightPt digitFontSizePt : ℚ) :
    List RenderedDigitPlacement :=
  let digits := orderDigits orderNumber
  let n := digits.length
  let bottom := stackBottomCenterY orderNumber columnHeightPt digitFontSizePt
  digits.enum.map fun p =>
    ⟨p.2, -90, columnWidthPt / 2,
      bottom + stackSpacing digitFontSizePt * ((n : ℚ) - 1 - (p.1 : ℚ))⟩

/-! ### Arithmetic facts about the constants -/

lemma visibleHeightRatio_pos : (0 : ℚ) < visibleHeightRatio := by
  norm_num [visibleHeightRatio]

lemma candidate_mul_ratio : candidateSize * visibleHeightRatio = TEXT_HEIGHT_PT := by
  rw [candidateSize, div_mul_cancel₀]
  norm_num [visibleHeightRatio]

lemma candidateSize_pos : (0 : ℚ) < candidateSize := by
  norm_num [candidateSize, TEXT_HEIGHT_PT, TEXT_MAX_HEIGHT_MM, MM_TO_PT, visibleHeightRatio]

lemma twenty_lt_candidateSize : (20 : ℚ) < candidateSize := by
  norm_num [candidateSize, TEXT_HEIGHT_PT, TEXT_MAX_HEIGHT_MM, MM_TO_PT, visibleHeightRatio]

lemma candidateSize_le_800 : candidateSize ≤ 800 := by
  norm_num [candidateSize, TEXT_HEIGHT_PT, TEXT_MAX_HEIGHT_MM, MM_TO_PT, visibleHeightRatio]

lemma text_width_pos : (0 : ℚ) < TEXT_WIDTH_PT := by
  norm_num [TEXT_WIDTH_PT, TEXT_MAX_WIDTH_MM, MM_TO_PT]

/-! ### Fixed points of the refinement step -/

lemma scale_div (a u s : ℚ) (hs : s ≠ 0) (hu : u ≠ 0) :
    s * a / (u * s) = a / u := by
  field_simp
  ring

lemma height_if_neg (s : ℚ) (hs : s ≤ candidateSize) :
    ¬ TEXT_HEIGHT_PT < s * visibleHeightRatio := by
  rw [not_lt]
  calc s * visibleHeightRatio ≤ candidateSize * visibleHeightRatio :=
        mul_le_mul_of_nonneg_right hs (le_of_lt visibleHeightRatio_pos)
    _ = TEXT_HEIGHT_PT := candidate_mul_ratio

/-- When the width already fits at the candidate size, the step leaves the
candidate size unchanged. -/
lemma sizeStep_fixes_candidate (u : ℚ) (h : u * candidateSize ≤ TEXT_WIDTH_PT) :
    sizeStep u candidateSize = candidateSize := by
  simp only [sizeStep, measureWidth, getVisibleHeight]
  rw [if_neg (height_if_neg candidateSize (le_refl _)),
      if_neg (not_lt.mpr h),
      min_eq_left candidateSize_le_800,
      max_eq_right (le_of_lt twenty_lt_candidateSize)]

/-- The width-fitting size `W / u` is a fixed point of the step whenever it
lies in the clamp range `[20, candidateSize]`. -/
lemma sizeStep_fixes_fit (u : ℚ) (hu : 0 < u)
    (h20 : 20 ≤ TEXT_WIDTH_PT / u) (hc : TEXT_WIDTH_PT / u ≤ candidateSize) :
    sizeStep u (TEXT_WIDTH_PT / u) = TEXT_WIDTH_PT / u := by
  simp only [sizeStep, measureWidth, getVisibleHeight]
  rw [if_neg (height_if_neg _ hc), mul_div_cancel₀ _ (ne_of_gt hu),
      if_neg (lt_irrefl _),
      min_eq_left (le_trans hc candidateSize_le_800),
      max_eq_right h20]

/-- When the text is so wide that even 20 pt overflows the width, the lower
clamp value 20 is a fixed point of the step: the loop is stuck at 20. -/
lemma sizeStep_fixes_twenty (u : ℚ) (h : TEXT_WIDTH_PT < 20 * u) :
    sizeStep u 20 = 20 := by
  have hu : 0 < u := by nlinarith [text_width_pos]
  simp only [sizeStep, measureWidth, getVisibleHeight]
  rw [if_neg (height_if_neg 20 (le_of_lt twenty_lt_candidateSize)),
      if_pos (by rw [mul_comm]; exact h),
      scale_div _ _ _ (by norm_num) (ne_of_gt hu)]
  have hle : TEXT_WIDTH_PT / u ≤ 20 := by
    rw [div_le_iff₀ hu]
    linarith [h]
  rw [min_eq_left (le_trans hle (by norm_num)), max_eq_left hle]

/-! ### Closed forms of the solved size -/

/-- If the text fits the width at the candidate size, the solver returns the
candidate size unchanged. -/
lemma solveSize_eq_candidate (u : ℚ) (h : u * candidateSize ≤ TEXT_WIDTH_PT) :
    solveSize u = candidateSize :=
  Function.iterate_fixed (sizeStep_fixes_candidate u h) 15

/-- One step of the loop from the candidate size, when the candidate size
overflows the width: scale down to `W / u`, then clamp from below at 20. -/
lemma sizeStep_candidate_of_wide (u : ℚ) (hwide : TEXT_WIDTH_PT < u * candidateSize) :
    sizeStep u candidateSize = max 20 (TEXT_WIDTH_PT / u) := by
  have hu : 0 < u := by nlinarith [text_width_pos, candidateSize_pos]
  have hcle : TEXT_WIDTH_PT / u ≤ candidateSize := by
    rw [div_le_iff₀ hu]
    calc TEXT_WIDTH_PT ≤ u * candidateSize := le_of_lt hwide
      _ = candidateSize * u := mul_comm _ _
  simp only [sizeStep, measureWidth, getVisibleHeight]
  rw [if_neg (height_if_neg candidateSize (le_refl _)), if_pos hwide,
      scale_div _ _ _ (ne_of_gt candidateSize_pos) (ne_of_gt hu),
      min_eq_left (le_trans hcle candidateSize_le_800)]

/-- If the candidate size overflows the width but the width-fitting size is
above the 20 pt clamp, the solver returns exactly `W / u`. -/
lemma solveSize_eq_fit (u : ℚ) (hwide : TEXT_WIDTH_PT < u * candidateSize)
    (h20 : 20 * u ≤ TEXT_WIDTH_PT) : solveSize u = TEXT_WIDTH_PT / u := by
  have hu : 0 < u := by nlinarith [text_width_pos, candidateSize_pos]
  have h20' : (20 : ℚ) ≤ TEXT_WIDTH_PT / u := by
    rw [le_div_iff₀ hu]; linarith
  have hcle : TEXT_WIDTH_PT / u ≤ candidateSize := by
    rw [div_le_iff₀ hu]
    calc TEXT_WIDTH_PT ≤ u * candidateSize := le_of_lt hwide
      _ = candidateSize * u := mul_comm _ _
  have hstep1 : sizeStep u candidateSize = TEXT_WIDTH_PT / u := by
    rw [sizeStep_candidate_of_wide u hwide, max_eq_right h20']
  have hiter : solveSize u = (sizeStep u)^[14] (sizeStep u candidateSize) :=
    Function.iterate_succ_apply (sizeStep u) 14 candidateSize
  rw [hiter, hstep1]
  exact Function.iterate_fixed (sizeStep_fixes_fit u hu h20' hcle) 14

/-- If even 20 pt overflows the width, the solver gets stuck at the lower
clamp and returns 20 — the width constraint is then violated. -/
lemma solveSize_eq_twenty (u : ℚ) (h : TEXT_WIDTH_PT < 20 * u) :
    solveSize u = 20 := by
  have hu : 0 < u := by nlinarith [text_width_pos]
  have hwide : TEXT_WIDTH_PT < u * candidateSize := by
    calc TEXT_WIDTH_PT < 20 * u := h
      _ ≤ candidateSize * u :=
          mul_le_mul_of_nonneg_right (le_of_lt twenty_lt_candidateSize) (le_of_lt hu)
      _ = u * candidateSize := mul_comm _ _
  have hfit20 : TEXT_WIDTH_PT / u ≤ 20 := by
    rw [div_le_iff₀ hu]; linarith
  have hstep1 : sizeStep u candidateSize = 20 := by
    rw [sizeStep_candidate_of_wide u hwide, max_eq_left hfit20]
  have hiter : solveSize u = (sizeStep u)^[14] (sizeStep u candidateSize) :=
    Function.iterate_succ_apply (sizeStep u) 14 candidateSize
  rw [hiter, hstep1]
  exact Function.iterate_fixed (sizeStep_fixes_twenty u h) 14

/-- The solved size never exceeds the candidate size, so the visible-height
constraint holds unconditionally. -/
lemma solveSize_le_candidate (u : ℚ) : solveSize u ≤ candidateSize := by
  by_cases h20 : TEXT_WIDTH_PT < 20 * u
  · rw [solveSize_eq_twenty u h20]
    exact le_of_lt twenty_lt_candidateSize
  · by_cases hfit : u * candidateSize ≤ TEXT_WIDTH_PT
    · rw [solveSize_eq_candidate u hfit]
    · have hwide : TEXT_WIDTH_PT < u * candidateSize := lt_of_not_ge hfit
      have hu' : 0 < u := by nlinarith [text_width_pos, candidateSize_pos]
      rw [solveSize_eq_fit u hwide (le_of_not_lt h20)]
      rw [div_le_iff₀ hu']
      calc TEXT_WIDTH_PT ≤ u * candidateSize := le_of_lt hwide
        _ = candidateSize * u := mul_comm _ _

/-! ## Claims C1, C2, C5: the font sizing solver -/

/-- C1 (counterexample): for a run of extremely wide characters — a text
measuring 60 pt of width per point of font size, e.g. about 64 copies of
`W` in Helvetica-Bold — the solver's lower clamp of 20 pt leaves the final
measured width at 1200 pt, far above the 260 mm text-area width plus any
sub-point tolerance.  The claimed invariant fails on the code. -/
theorem solver_width_invariant_counterexample :
    TEXT_WIDTH_PT + 1 < finalWidth 60 := by
  rw [finalWidth, measureWidth, solveSize_eq_twenty 60 (by
    norm_num [TEXT_WIDTH_PT, TEXT_MAX_WIDTH_MM, MM_TO_PT])]
  norm_num [TEXT_WIDTH_PT, TEXT_MAX_WIDTH_MM, MM_TO_PT]

/-- C1 (amended): for every text, the visible-height constraint holds at the
solved size; the width constraint additionally holds whenever the measured
width at 20 pt (the solver's lower clamp) does not itself exceed the
260 mm text-area width — equivalently, whenever the width-fitting size is
not below the clamp. -/
theorem solver_fit_constraints (u : ℚ) (_hu : 0 ≤ u) :
    finalVisibleHeight u ≤ TEXT_HEIGHT_PT ∧
    (20 * u ≤ TEXT_WIDTH_PT → finalWidth u ≤ TEXT_WIDTH_PT) := by
  constructor
  · rw [finalVisibleHeight, getVisibleHeight]
    calc solveSize u * visibleHeightRatio
        ≤ candidateSize * visibleHeightRatio :=
          mul_le_mul_of_nonneg_right (solveSize_le_candidate u)
            (le_of_lt visibleHeightRatio_pos)
      _ = TEXT_HEIGHT_PT := candidate_mul_ratio
  · intro h20
    by_cases hfit : u * candidateSize ≤ TEXT_WIDTH_PT
    · rw [finalWidth, measureWidth, solveSize_eq_candidate u hfit]
      exact hfit
    · have hwide : TEXT_WIDTH_PT < u * candidateSize := lt_of_not_ge hfit
      have hu' : 0 < u := by nlinarith [text_width_pos, candidateSize_pos]
      rw [finalWidth, measureWidth, solveSize_eq_fit u hwide h20,
          mul_div_cancel₀ _ (ne_of_gt hu')]

/-- C1 (witness): the amended theorem applied at the concrete width datum
`u = 1` (a narrow text, one point of width per point of size). -/
theorem solver_fit_constraints_witness :
    finalVisibleHeight 1 ≤ TEXT_HEIGHT_PT ∧ finalWidth 1 ≤ TEXT_WIDTH_PT := by
  have h := solver_fit_constraints 1 (by norm_num)
  exact ⟨h.1, h.2 (by norm_num [TEXT_WIDTH_PT, TEXT_MAX_WIDTH_MM, MM_TO_PT])⟩

/-- C2 (counterexample): a text measuring 100 pt of width per point of font
size overflows the width at the height-maximizing candidate size, yet the
returned width is 2000 pt, not the text-area width: the scaling-down claim
fails once the required size falls below the 20 pt clamp, so it does not
hold "regardless of how small the resulting font size must become". -/
theorem solver_width_scaling_counterexample :
    TEXT_WIDTH_PT < 100 * candidateSize ∧ TEXT_WIDTH_PT + 1 < finalWidth 100 := by
  constructor
  · norm_num [TEXT_WIDTH_PT, TEXT_MAX_WIDTH_MM, MM_TO_PT, candidateSize,
      TEXT_HEIGHT_PT, TEXT_MAX_HEIGHT_MM, visibleHeightRatio]
  · rw [finalWidth, measureWidth, solveSize_eq_twenty 100 (by
      norm_num [TEXT_WIDTH_PT, TEXT_MAX_WIDTH_MM, MM_TO_PT])]
    norm_num [TEXT_WIDTH_PT, TEXT_MAX_WIDTH_MM, MM_TO_PT]

/-- C2 (amended): when the measured width at the height-maximizing candidate
size exceeds the text-area width, the solver scales the size down by the
ratio `W / measuredWidth` and the returned measured width equals the
text-area width exactly — provided the scaled size stays at or above the
20 pt lower clamp. -/
theorem solver_width_binding (u : ℚ)
    (hwide : TEXT_WIDTH_PT < u * candidateSize)
    (h20 : 20 * u ≤ TEXT_WIDTH_PT) :
    finalWidth u = TEXT_WIDTH_PT := by
  have hu : 0 < u := by nlinarith [text_width_pos, candidateSize_pos]
  rw [finalWidth, measureWidth, solveSize_eq_fit u hwide h20,
      mul_div_cancel₀ _ (ne_of_gt hu)]

/-- C2 (witness): the amended theorem at `u = 10` — the candidate size
overflows the width, the width-fitting size is above the clamp, and the
returned width equals the text-area width exactly. -/
theorem solver_width_binding_witness : finalWidth 10 = TEXT_WIDTH_PT :=
  solver_width_binding 10
    (by norm_num [TEXT_WIDTH_PT, TEXT_MAX_WIDTH_MM, MM_TO_PT, candidateSize,
      TEXT_HEIGHT_PT, TEXT_MAX_HEIGHT_MM, visibleHeightRatio])
    (by norm_num [TEXT_WIDTH_PT, TEXT_MAX_WIDTH_MM, MM_TO_PT])

/-- C5: if the measured width at the height-maximizing candidate size
`TEXT_HEIGHT_PT / 0.73` already fits the text-area width, the solver
returns exactly that candidate size — vertical space is never left unused
when width permits filling it. -/
theorem solver_accepts_candidate (u : ℚ)
    (hfit : u * candidateSize ≤ TEXT_WIDTH_PT) :
    solveSize u = candidateSize := by
  exact solveSize_eq_candidate u hfit

/-- C5 (witness): at `u = 1` the candidate-size width (about 209.7 pt) fits
the 737 pt text area, and the solver returns the candidate size. -/
theorem solver_accepts_candidate_witness : solveSize 1 = candidateSize :=
  solver_accepts_candidate 1
    (by norm_num [TEXT_WIDTH_PT, TEXT_MAX_WIDTH_MM, MM_TO_PT, candidateSize,
      TEXT_HEIGHT_PT, TEXT_MAX_HEIGHT_MM, visibleHeightRatio])

/-! ## Claim C3: the order-number digit stack (modelled from the spec) -/

/-- C3: for an order number with `n ≥ 1` digits the renderer returns one
placement per digit; each is rotated 90° counter-clockwise, horizontally
centered in the column; digit `i` of the reading order sits at
`bottomCenterY + spacing × (n − 1 − i)`, so the first digit is on top and
the last at the bottom, uniformly spaced center-to-center; the bottom
digit's center is `(columnHeightPt − spacing × (n − 1)) / 2` and the top
margin equals the bottom margin. -/
theorem orderNumber_stack (s : String) (w h f : ℚ)
    (_hn : 1 ≤ (orderDigits s).length) :
    (renderOrderNumber s w h f).length = (orderDigits s).length ∧
    (∀ i, (hi : i < (orderDigits s).length) →
      (renderOrderNumber s w h f)[i]? =
        some ⟨(orderDigits s).get ⟨i, hi⟩, -90, w / 2,
          stackBottomCenterY s h f +
            stackSpacing f * (((orderDigits s).length : ℚ) - 1 - (i : ℚ))⟩) ∧
    stackBottomCenterY s h f =
      (h - stackSpacing f * (((orderDigits s).length : ℚ) - 1)) / 2 ∧
    h - (stackBottomCenterY s h f +
          stackSpacing f * (((orderDigits s).length : ℚ) - 1)) =
      stackBottomCenterY s h f := by
  have hlen : (renderOrderNumber s w h f).length = (orderDigits s).length := by
    simp [renderOrderNumber]
  refine ⟨hlen, ?_, rfl, ?_⟩
  · intro i hi
    have hi' : i < (renderOrderNumber s w h f).length := by rw [hlen]; exact hi
    rw [List.getElem?_eq_getElem hi']
    simp [renderOrderNumber, List.getElem_map, List.getElem_enum]
  · rw [stackBottomCenterY]
    ring

/-- C3 (witness): the stack for order number `"123"` in a 60 pt tall column
at digit font size 10: three placements, the bottom digit's center at
`(60 − 8.5 × 2) / 2 = 21.5`. -/
theorem orderNumber_stack_witness :
    (renderOrderNumber "123" 5 60 10).length = 3 ∧
    stackBottomCenterY "123" 60 10 = 43 / 2 := by
  have h := orderNumber_stack "123" 5 60 10 (by decide)
  constructor
  · rw [h.1]
    rfl
  · rw [h.2.2.1]
    have hlen : (orderDigits "123").length = 3 := rfl
    rw [hlen]
    norm_num [stackSpacing, spacingFactor]

/-! ## Claim C4: page bounds -/

/-- C4 (counterexample): the claimed page bounds do not match the code: the
page height constant is 66 mm, not 60 mm, and the main text region is
260 mm wide, not 250 mm (and the renderer has no order-number column at
all). -/
theorem page_bounds_counterexample :
    PDF_HEIGHT_MM ≠ 60 ∧ TEXT_MAX_WIDTH_MM ≠ 250 := by
  norm_num [PDF_HEIGHT_MM, TEXT_MAX_WIDTH_MM]

/-- C4 (amended): the rendered page is a fixed 270 mm × 66 mm rectangle
with a single centered main text region 260 mm × 54 mm (5 mm side margins,
6 mm top and bottom margins), strictly inside the page; these bounds are
constants of the renderer, not derived from any input — every rendered
geometry carries the same page size. -/
theorem page_bounds_constants :
    PDF_WIDTH_MM = 270 ∧ PDF_HEIGHT_MM = 66 ∧ TEXT_MAX_WIDTH_MM = 260 ∧
    TEXT_MAX_HEIGHT_MM = 54 ∧
    textAreaX = 5 * MM_TO_PT ∧ textAreaY = 6 * MM_TO_PT ∧
    0 < textAreaX ∧ textAreaX + TEXT_WIDTH_PT < PDF_WIDTH_PT ∧
    0 < textAreaY ∧ textAreaY + TEXT_HEIGHT_PT < PDF_HEIGHT_PT ∧
    ∀ config candidatePaths existsSync u hLine,
      (renderGeometry config candidatePaths existsSync u hLine).pageWidthPt =
        PDF_WIDTH_PT ∧
      (renderGeometry config candidatePaths existsSync u hLine).pageHeightPt =
        PDF_HEIGHT_PT := by
  refine ⟨rfl, rfl, rfl, rfl, ?_, ?_, ?_, ?_, ?_, ?_, ?_⟩
  · norm_num [textAreaX, PDF_WIDTH_PT, TEXT_WIDTH_PT, PDF_WIDTH_MM,
      TEXT_MAX_WIDTH_MM, MM_TO_PT]
  · norm_num [textAreaY, PDF_HEIGHT_PT, TEXT_HEIGHT_PT, PDF_HEIGHT_MM,
      TEXT_MAX_HEIGHT_MM, MM_TO_PT]
  · norm_num [textAreaX, PDF_WIDTH_PT, TEXT_WIDTH_PT, PDF_WIDTH_MM,
      TEXT_MAX_WIDTH_MM, MM_TO_PT]
  · norm_num [textAreaX, PDF_WIDTH_PT, TEXT_WIDTH_PT, PDF_WIDTH_MM,
      TEXT_MAX_WIDTH_MM, MM_TO_PT]
  · norm_num [textAreaY, PDF_HEIGHT_PT, TEXT_HEIGHT_PT, PDF_HEIGHT_MM,
      TEXT_MAX_HEIGHT_MM, MM_TO_PT]
  · norm_num [textAreaY, PDF_HEIGHT_PT, TEXT_HEIGHT_PT, PDF_HEIGHT_MM,
      TEXT_MAX_HEIGHT_MM, MM_TO_PT]
  · intro config candidatePaths existsSync u hLine
    exact ⟨rfl, rfl⟩

/-! ## Claim C6: empty or missing text -/

/-- C6 (counterexample): an order whose only line item has an empty
`label_text` is not surfaced as a validation failure: `handleOrderPaid`
returns a successful result with an empty file list (the upload function
supplied here would error if it were ever consulted), silently dropping
the configuration. -/
theorem empty_text_silently_ok :
    handleOrderPaid none "2026-02-03T00:00:00Z"
        (fun _ _ => Except.error "no upload") emptyTextOrder =
      Except.ok ("/Labels/2026-01-02/Ord", []) := by
  rfl

/-- C6 (amended): a label configuration whose text is empty or missing is
rejected before any rendering work starts — every extracted configuration
has non-empty text — but the rejection is silent: an order with no valid
configuration yields a successful result with an empty file list, not a
surfaced validation failure. -/
theorem empty_text_filtered (order : ShopifyOrder) (root : Option String)
    (now : String)
    (upload : String → List String → Except String (List String)) :
    (∀ cfg ∈ extractLabelConfigs order, ∃ t, cfg.text = some t ∧ t ≠ "") ∧
    (extractLabelConfigs order = [] →
      handleOrderPaid root now upload order =
        Except.ok (folderPathOf root now order, [])) := by
  constructor
  · intro cfg hcfg
    simp only [extractLabelConfigs, List.mem_filterMap] at hcfg
    obtain ⟨li, _, heq⟩ := hcfg
    split at heq
    case h_1 t htext =>
      split at heq
      · exact absurd heq (by simp)
      · rename_i hne
        refine ⟨t, ?_, hne⟩
        rw [← Option.some_inj.mp heq]
        exact htext
    case h_2 => exact absurd heq (by simp)
  · intro hempty
    rw [handleOrderPaid]
    simp [hempty]

/-- C6 (witness): the amended theorem at the concrete empty-text order. -/
theorem empty_text_filtered_witness :
    handleOrderPaid none "t" (fun _ _ => Except.error "no upload")
        emptyTextOrder =
      Except.ok (folderPathOf none "t" emptyTextOrder, []) := by
  have h := empty_text_filtered emptyTextOrder none "t"
    (fun _ _ => Except.error "no upload")
  exact h.2 (by decide)

/-! ## Claim C7: font load failure -/

/-- C7: when no candidate filesystem path for the Impact font exists, the
renderer still resolves with a valid buffer — the font-load error is
caught, a warning is recorded, and the geometry is rendered with the
fallback font `Helvetica-Bold`. -/
theorem font_fallback (config : LabelConfig) (candidatePaths : List String)
    (existsSync : String → Bool) (u hLine : ℚ)
    (hmiss : ∀ p ∈ candidatePaths, existsSync p = false) :
    generateLabelPDF config candidatePaths existsSync u hLine =
      Except.ok (renderGeometry config candidatePaths existsSync u hLine) ∧
    (renderGeometry config candidatePaths existsSync u hLine).usedFont =
      "Helvetica-Bold" ∧
    (renderGeometry config candidatePaths existsSync u hLine).fontWarned = true := by
  have hfind : findImpactPath candidatePaths existsSync = none := by
    rw [findImpactPath, List.find?_eq_none]
    intro x hx
    simp [hmiss x hx]
  refine ⟨rfl, ?_, ?_⟩ <;>
    simp [renderGeometry, resolveFont, loadImpactFont, hfind]

/-- C7 (witness): with a single candidate path and an `existsSync` that
finds nothing, the render succeeds on the fallback font with a warning. -/
theorem font_fallback_witness :
    (renderGeometry ⟨some "A", none, none, none, 1, none⟩
        ["/var/task/fonts/Impact.ttf"] (fun _ => false) 1 1).usedFont =
      "Helvetica-Bold" ∧
    (renderGeometry ⟨some "A", none, none, none, 1, none⟩
        ["/var/task/fonts/Impact.ttf"] (fun _ => false) 1 1).fontWarned = true := by
  have h := font_fallback ⟨some "A", none, none, none, 1, none⟩
    ["/var/task/fonts/Impact.ttf"] (fun _ => false) 1 1
    (by intro p _; rfl)
  exact ⟨h.2.1, h.2.2⟩

/-! ## Claim C8: one buffer and filename per copy -/

/-- C8: a configuration with positive quantity and a non-empty correlation
id produces exactly `quantity` filenames, the `i`-th (0-based `i`) being
`label-<configId>-<i+1>.pdf`: the copy index runs from 1 to `quantity`. -/
theorem copies_filenames (cfg : LabelConfig) (cid : String)
    (hq : 1 ≤ cfg.quantity) (hcid : cfg.configId = some cid) (hne : cid ≠ "") :
    (pdfFilenames cfg).length = cfg.quantity ∧
    ∀ i, (hi : i < (pdfFilenames cfg).length) →
      (pdfFilenames cfg).get ⟨i, hi⟩ =
        "label-" ++ cid ++ "-" ++ toString (i + 1) ++ ".pdf" := by
  have hq0 : jsOrNat cfg.quantity 1 = cfg.quantity := by
    rw [jsOrNat, if_neg (by omega)]
  have hmax : max 1 (jsOrNat cfg.quantity 1) = cfg.quantity := by
    rw [hq0]; omega
  constructor
  · simp [pdfFilenames, hmax]
  · intro i hi
    simp [pdfFilenames, labelFilename, hmax, jsOr, hcid, hne]

/-- C8 (witness): quantity 2 with correlation id `abc` yields exactly the
filenames `label-abc-1.pdf` and `label-abc-2.pdf`. -/
theorem copies_filenames_witness :
    (pdfFilenames ⟨some "T", none, none, none, 2, some "abc"⟩).length = 2 ∧
    pdfFilenames ⟨some "T", none, none, none, 2, some "abc"⟩ =
      ["label-abc-1.pdf", "label-abc-2.pdf"] := by
  have h := copies_filenames ⟨some "T", none, none, none, 2, some "abc"⟩ "abc"
    (by norm_num) rfl (by decide)
  exact ⟨h.1, by decide⟩

/-! ## Claim C9: determinism of the computed geometry -/

/-- C9: two renders with identical label configuration, identical font
state (same candidate paths and filesystem) and identical text
measurements compute identical geometry: same final font size, same
horizontal text position, same baseline, same page dimensions. -/
theorem render_geometry_deterministic (c₁ c₂ : LabelConfig)
    (p₁ p₂ : List String) (e₁ e₂ : String → Bool) (u₁ u₂ l₁ l₂ : ℚ)
    (hc : c₁ = c₂) (hp : p₁ = p₂) (he : e₁ = e₂) (hu : u₁ = u₂)
    (hl : l₁ = l₂) :
    (renderGeometry c₁ p₁ e₁ u₁ l₁).finalSize =
      (renderGeometry c₂ p₂ e₂ u₂ l₂).finalSize ∧
    (renderGeometry c₁ p₁ e₁ u₁ l₁).textX =
      (renderGeometry c₂ p₂ e₂ u₂ l₂).textX ∧
    (renderGeometry c₁ p₁ e₁ u₁ l₁).safeBaselineY =
      (renderGeometry c₂ p₂ e₂ u₂ l₂).safeBaselineY ∧
    (renderGeometry c₁ p₁ e₁ u₁ l₁).pageWidthPt =
      (renderGeometry c₂ p₂ e₂ u₂ l₂).pageWidthPt ∧
    (renderGeometry c₁ p₁ e₁ u₁ l₁).pageHeightPt =
      (renderGeometry c₂ p₂ e₂ u₂ l₂).pageHeightPt := by
  subst hc hp he hu hl
  exact ⟨rfl, rfl, rfl, rfl, rfl⟩

/-- C9 (witness): the determinism theorem applied at one concrete input. -/
theorem render_geometry_deterministic_witness :
    (renderGeometry ⟨some "AB", none, none, none, 1, some "c"⟩ []
        (fun _ => true) 2 1).finalSize =
      (renderGeometry ⟨some "AB", none, none, none, 1, some "c"⟩ []
        (fun _ => true) 2 1).finalSize :=
  (render_geometry_deterministic _ _ _ _ _ _ _ _ _ _
    rfl rfl rfl rfl rfl).1

/-! ## Claim C10: webhook authentication gate -/

/-- C10: a non-POST request is answered 405 without invoking
`handleOrderPaid`; for a POST request, if the trimmed webhook secret is
empty (unset or blank) or the `x-shopify-hmac-sha256` header is absent or
differs from the base64 HMAC digest of the raw body under that secret, the
handler answers 401 and `handleOrderPaid` is never invoked — in
particular a missing secret rejects every request, signed or not. -/
theorem webhook_auth_gate (hmac : String → String → String)
    (parse : String → Except String ShopifyOrder)
    (orderPaid : ShopifyOrder → Except String (String × List String))
    (secretEnv : Option String) (req : WebhookRequest) :
    (req.method ≠ "POST" →
      handler hmac parse orderPaid secretEnv req =
        ⟨HttpResponse.methodNotAllowed, false⟩) ∧
    (req.method = "POST" →
      (jsTrim (secretEnv.getD "") = "" ∨
        req.hmacHeader ≠ some (hmac (jsTrim (secretEnv.getD "")) req.body)) →
      handler hmac parse orderPaid secretEnv req =
        ⟨HttpResponse.unauthorized, false⟩) := by
  constructor
  · intro hm
    rw [handler, if_pos hm]
  · intro hm hbad
    have hcond : jsTrim (secretEnv.getD "") = "" ∨
        verifyHmac hmac req.body (jsTrim (secretEnv.getD "")) req.hmacHeader =
          false := by
      rcases hbad with h1 | h2
      · exact Or.inl h1
      · right
        cases hh : req.hmacHeader with
        | none => simp [verifyHmac]
        | some header =>
          rw [hh] at h2
          simp only [verifyHmac, beq_eq_false_iff_ne, ne_eq]
          intro heq
          exact h2 (by rw [heq])
    simp only [handler, if_neg (by simp [hm] : ¬ req.method ≠ "POST")]
    rw [if_pos hcond]

/-- C10 (witness): a GET request is answered 405, and a POST request with
an empty secret and a present header is answered 401 without invoking
`handleOrderPaid`. -/
theorem webhook_auth_gate_witness :
    handler (fun s b => s ++ b) (fun _ => Except.error "parse")
        (fun _ => Except.error "op") (some "") ⟨"GET", none, "x"⟩ =
      ⟨HttpResponse.methodNotAllowed, false⟩ ∧
    handler (fun s b => s ++ b) (fun _ => Except.error "parse")
        (fun _ => Except.error "op") (some "") ⟨"POST", some "sig", "x"⟩ =
      ⟨HttpResponse.unauthorized, false⟩ := by
  constructor
  · exact (webhook_auth_gate (fun s b => s ++ b) (fun _ => Except.error "parse")
      (fun _ => Except.error "op") (some "") ⟨"GET", none, "x"⟩).1 (by decide)
  · exact (webhook_auth_gate (fun s b => s ++ b) (fun _ => Except.error "parse")
      (fun _ => Except.error "op") (some "") ⟨"POST", some "sig", "x"⟩).2
      rfl (Or.inl (by decide))
